import Mathlib

/-!
Shallow embedding of `pkg/drivers/drivers.go` (minikube driver lifecycle
and disk provisioning), together with theorems settling the specification
claims about it.

External effects (process probing, the fetcher, the filesystem, chown)
are modelled by explicit environment records carrying the outcome of each
fallible external call and by explicit state values threaded through the
functions, so that every function here is a pure, executable Lean
counterpart of the Go source.
-/

namespace Drivers

/-! ## Version-token extraction (`ExtractVMDriverVersion`) -/

/-- The literal characters of the regex `version:(.*)` before the capture
group, from `regexp.MustCompile` at drivers.go:228. -/
def verPat : List Char := ['v', 'e', 'r', 's', 'i', 'o', 'n', ':']

/-- Whether `p` is an initial segment of `l` (character-wise). Used to model
the leftmost-match search of the Go regexp engine for the literal pattern. -/
def listStartsWith : List Char → List Char → Bool
  | [], _ => true
  | _ :: _, [] => false
  | p :: ps, c :: cs => p == c && listStartsWith ps cs

/-- Leftmost-match search for `version:`: returns the characters following
the first occurrence of the pattern, or `none` when the pattern does not
occur. Models `versionRegex.FindStringSubmatch` locating the match. -/
def findVersionTail : List Char → Option (List Char)
  | [] => none
  | c :: cs =>
    if listStartsWith verPat (c :: cs) then some (List.drop verPat.length (c :: cs))
    else findVersionTail cs

/-- Whitespace predicate modelling Go `unicode.IsSpace` on the characters
that can occur here (ASCII whitespace plus NEL and NBSP). -/
def isGoSpace (c : Char) : Bool :=
  c == ' ' || c == '\t' || c == '\n' || c == '\r' ||
    c == Char.ofNat 11 || c == Char.ofNat 12 || c == Char.ofNat 133 || c == Char.ofNat 160

/-- Go `strings.TrimSpace` on a character list: drop whitespace from both
ends. -/
def trimSpaceL (l : List Char) : List Char :=
  ((l.dropWhile isGoSpace).reverse.dropWhile isGoSpace).reverse

/-- Go `strings.TrimPrefix(v, version.VersionPrefix)`.
Modelled from the spec for the one constant outside this file:
`version.VersionPrefix` (package `k8s.io/minikube/pkg/version`) is the
known version-prefix token `"v"` that the spec says is stripped
(`"v1.2.3"` becomes `"1.2.3"`). -/
def stripVPre (l : List Char) : List Char :=
  if listStartsWith ['v'] l then l.drop 1 else l

/-- `ExtractVMDriverVersion` (drivers.go:227): find the first `version:`
occurrence; the capture group `(.*)` extends to the end of the line (Go
`.` does not match a newline); trim whitespace; strip the version prefix.
Returns the empty string when the pattern does not occur
(`len(matches) != 2`). -/
def ExtractVMDriverVersion (s : String) : String :=
  match findVersionTail s.data with
  | none => ""
  | some rest => ⟨stripVPre (trimSpaceL (rest.takeWhile (fun c => c != '\n')))⟩

/-! ## Semantic versions (`github.com/blang/semver`) -/

/-- A semantic version.
Modelled from the spec: the semver library (`github.com/blang/semver`) is
an external dependency, not part of this repository; the spec asks for
"standard semantic-version ordering (major, then minor, then patch, then
pre-release rules)". The claims only exercise plain release versions, so
pre-release and build metadata are not carried. -/
structure SemVer where
  major : Nat
  minor : Nat
  patch : Nat
deriving DecidableEq

/-- Value of a list of decimal digits. -/
def digitsVal (l : List Char) : Nat :=
  l.foldl (fun acc c => acc * 10 + (c.toNat - 48)) 0

/-- Parse one numeric version component: nonempty, decimal digits only,
no leading zero (except the single digit `0`), as semantic versioning
requires. -/
def parseNum (l : List Char) : Option Nat :=
  match l with
  | [] => none
  | c :: cs =>
    if (c :: cs).all Char.isDigit then
      if c == '0' && cs ≠ [] then none else some (digitsVal (c :: cs))
    else none

/-- Split a character list at every `.` (each separator consumed). -/
def splitDot : List Char → List (List Char)
  | [] => [[]]
  | c :: cs =>
    if c = '.' then [] :: splitDot cs
    else
      match splitDot cs with
      | [] => [[c]]
      | h :: t => (c :: h) :: t

/-- `semver.Make` / `semver.Parse`.
Modelled from the spec: parsing succeeds exactly on `major.minor.patch`
with three well-formed numeric components; anything else (such as
`"abc"`) is a parse error. -/
def semverMake (s : String) : Except String SemVer :=
  match splitDot s.data with
  | [ma, mi, pa] =>
    match parseNum ma, parseNum mi, parseNum pa with
    | some a, some b, some c => .ok ⟨a, b, c⟩
    | _, _, _ => .error ("invalid version " ++ s)
  | _ => .error ("no Major.Minor.Patch elements found in " ++ s)

/-- `Version.LT` of the semver library: strict lexicographic order on
(major, minor, patch). -/
def semverLT (a b : SemVer) : Bool :=
  a.major < b.major ||
    (a.major == b.major &&
      (a.minor < b.minor || (a.minor == b.minor && a.patch < b.patch)))

/-! ## Version reconciliation (`InstallOrUpdate` and `download`) -/

/-- Fixed download location, drivers.go:45. -/
def driverKVMDownloadURL : String :=
  "https://storage.googleapis.com/minikube/releases/latest/docker-machine-driver-kvm2"

/-- Outcome of probing the locally installed driver binary, covering the
three external steps of `InstallOrUpdate`: `exec.LookPath` failing, the
`version` subcommand failing, or the subcommand producing output. -/
inductive Probe where
  | notOnPath : Probe
  | versionCmdFails : Probe
  | versionOutput : String → Probe

/-- Outcomes of the external calls `download` makes: the fetcher
(`getter.Client.Get`) and `os.Chmod`. `none` means success. -/
structure DlEnv where
  fetchErr : Option String
  chmodErr : Option String

/-- Filesystem effects the reconciler can perform, recorded in order. -/
inductive FsEffect where
  | removeFile : String → FsEffect
  | fetchFile : String → String → FsEffect
  | chmodFile : String → Nat → FsEffect
deriving DecidableEq, BEq

/-- `download` (drivers.go:189). For any driver name other than
`docker-machine-driver-kvm2` it returns success at once, performing no
effect. Otherwise it removes any stale file at the target path (the
`os.Remove` error is discarded), fetches the binary, and marks it
`0777` (= 511). The target path models `path.Join(destination, name)`. -/
def download (driver destination : String) (env : DlEnv) :
    Except String Unit × List FsEffect :=
  if driver ≠ "docker-machine-driver-kvm2" then (.ok (), [])
  else
    let target := destination ++ "/" ++ "docker-machine-driver-kvm2"
    match env.fetchErr with
    | some e =>
      (.error ("cannot download driver " ++ driver ++ " from: " ++ driverKVMDownloadURL ++ ": " ++ e),
        [.removeFile target, .fetchFile driverKVMDownloadURL target])
    | none =>
      match env.chmodErr with
      | some e =>
        (.error ("chmod error: " ++ e),
          [.removeFile target, .fetchFile driverKVMDownloadURL target, .chmodFile target 511])
      | none =>
        (.ok (),
          [.removeFile target, .fetchFile driverKVMDownloadURL target, .chmodFile target 511])

/-- `InstallOrUpdate` (drivers.go:155): not on path, or `version`
subcommand failing, or an empty extracted version token, all trigger
`download`; a token that fails semver parsing is a propagated error (no
download); a parsed version strictly below `minikubeVersion` triggers
`download`; otherwise success with no effect. -/
def InstallOrUpdate (driver destination : String) (minikubeVersion : SemVer)
    (probe : Probe) (env : DlEnv) : Except String Unit × List FsEffect :=
  match probe with
  | .notOnPath => download driver destination env
  | .versionCmdFails => download driver destination env
  | .versionOutput output =>
    let v := ExtractVMDriverVersion output
    if v = "" then download driver destination env
    else
      match semverMake v with
      | .error e => (.error ("cannot parse driver version: " ++ e), [])
      | .ok vmDriverVersion =>
        if semverLT vmDriverVersion minikubeVersion then download driver destination env
        else (.ok (), [])

/-- The characters of the line `version: v1.2.3` with its newline. -/
def c6Line : List Char :=
  ['v', 'e', 'r', 's', 'i', 'o', 'n', ':', ' ', 'v', '1', '.', '2', '.', '3', '\n']

/-! ## Restart (`Restart`, drivers.go:100) -/

/-- A driver, for the purposes of `Restart`: the outcomes its `Stop` and
`Start` methods would produce in the current execution. -/
structure MDriver where
  stopRes : Except String Unit
  startRes : Except String Unit

/-- The driver-interface calls `Restart` can make, recorded in order. -/
inductive DrvCall where
  | stopCall : DrvCall
  | startCall : DrvCall
deriving DecidableEq, BEq

/-- `Restart` (drivers.go:100): call `Stop`; on error return it unchanged
(without calling `Start`); otherwise return the result of `Start`. The
second component records the calls made, in order. -/
def Restart (d : MDriver) : Except String Unit × List DrvCall :=
  match d.stopRes with
  | .error e => (.error e, [.stopCall])
  | .ok _ => (d.startRes, [.stopCall, .startCall])

/-! ## Raw disk image creation (`createRawDiskImage`, drivers.go:66) -/

/-- The file at the disk image path: its byte content. -/
structure DiskFile where
  bytes : List Nat
deriving DecidableEq

/-- Outcomes of the fallible steps of `createRawDiskImage`:
`mcnutils.MakeDiskImage` (the in-memory tar build, producing the buffer
bytes on success), and the file operations open / seek / write / close /
truncate, where `none` means the step succeeds when reached. `openErr`
covers open failures other than the path already existing (existence is
decided by the state itself, via `O_EXCL`). -/
structure DiskEnv where
  tarResult : Except String (List Nat)
  openErr : Option String
  seekErr : Option String
  writeErr : Option String
  closeErr : Option String
  truncErr : Option String

/-- `os.Truncate` to `n` bytes: shrink, or zero-extend, the content. -/
def padTo (l : List Nat) (n : Nat) : List Nat :=
  l.take n ++ List.replicate (n - l.length) 0

/-- `createRawDiskImage` (drivers.go:66) acting on the state of the disk
path (`none` = no file there). Build the tar buffer; open the path with
`O_CREATE|O_EXCL|O_WRONLY` (fails if a file exists, leaving it untouched;
otherwise creates an empty file); seek; write the buffer; close; truncate
to `int64(diskSizeMb*1000000)` bytes. The Go multiplication is wrapping
64-bit `int` arithmetic: the target size is `diskSizeMb * 1000000` reduced
mod `2^64` (here `diskSizeMb` ranges over the nonnegative `int` values),
and when the wrapped value has the sign bit set — it is negative as an
`int64` — `os.Truncate` itself fails. Each failure returns a wrapped
error and the state as it stands at that point — there is no cleanup of
a partially created file. -/
def createRawDiskImage (env : DiskEnv) (existing : Option DiskFile) (diskSizeMb : Nat) :
    Except String Unit × Option DiskFile :=
  match env.tarResult with
  | .error e => (.error ("make disk image: " ++ e), existing)
  | .ok tarBuf =>
    match existing with
    | some f => (.error "open: file exists", some f)
    | none =>
      match env.openErr with
      | some e => (.error ("open: " ++ e), none)
      | none =>
        match env.seekErr with
        | some e => (.error ("seek: " ++ e), some ⟨[]⟩)
        | none =>
          match env.writeErr with
          | some e => (.error ("write tar: " ++ e), some ⟨[]⟩)
          | none =>
            match env.closeErr with
            | some e => (.error ("closing file: " ++ e), some ⟨tarBuf⟩)
            | none =>
              match env.truncErr with
              | some e => (.error ("truncate: " ++ e), some ⟨tarBuf⟩)
              | none =>
                if diskSizeMb * 1000000 % 18446744073709551616 < 9223372036854775808 then
                  (.ok (), some ⟨padTo tarBuf (diskSizeMb * 1000000 % 18446744073709551616)⟩)
                else (.error "truncate: invalid argument", some ⟨tarBuf⟩)

/-! ## Ownership fixing (`fixPermissions`, drivers.go:136) -/

/-- A direct child file of the store directory, with its owning user and
group ids. -/
structure OwnedFile where
  name : String
  owner : Nat
  group : Nat
deriving DecidableEq

/-- The store directory: its own ownership and its direct child files. -/
structure DirState where
  owner : Nat
  group : Nat
  children : List OwnedFile
deriving DecidableEq

/-- The identity of the current process: real and effective user id, real
and effective group id (`syscall.Getuid` / `Geteuid` / `Getgid` /
`Getegid`). -/
structure ProcIds where
  uid : Nat
  euid : Nat
  gid : Nat
  egid : Nat

/-- Outcomes of the fallible external calls of `fixPermissions`: chown of
the directory, `ioutil.ReadDir`, and chown of each child (by name);
`none` means success. -/
structure ChownEnv where
  chownDirErr : Option String
  readDirErr : Option String
  chownFileErr : String → Option String

/-- The loop of `fixPermissions` over the directory entries: chown each
child in order to (`Getuid`, `Getegid`); the first failure aborts,
leaving the earlier children already re-owned and the rest untouched. -/
def fixFiles (p : ProcIds) (env : ChownEnv) : List OwnedFile → Except String Unit × List OwnedFile
  | [] => (.ok (), [])
  | f :: fs =>
    match env.chownFileErr f.name with
    | some e => (.error ("chown file: " ++ e), f :: fs)
    | none =>
      let rec1 := fixFiles p env fs
      (rec1.1, ⟨f.name, p.uid, p.egid⟩ :: rec1.2)

/-- `fixPermissions` (drivers.go:136): chown the directory itself, then
every direct child, to `syscall.Getuid()` (the REAL user id) and
`syscall.Getegid()` (the effective group id). -/
def fixPermissions (p : ProcIds) (env : ChownEnv) (d : DirState) :
    Except String Unit × DirState :=
  match env.chownDirErr with
  | some e => (.error ("chown dir: " ++ e), d)
  | none =>
    match env.readDirErr with
    | some e => (.error ("read dir: " ++ e), ⟨p.uid, p.egid, d.children⟩)
    | none =>
      let res := fixFiles p env d.children
      (res.1, ⟨p.uid, p.egid, res.2⟩)

/-! ## Disk provisioning (`MakeDiskImage`, drivers.go:109) -/

/-- Outcomes of the two external collaborator calls of `MakeDiskImage`:
`CopyIsoToMachineDir` and `ssh.GenerateSSHKey`; plus the environments of
the two internal steps and the process identity. -/
structure ProvEnv where
  isoErr : Option String
  keyErr : Option String
  disk : DiskEnv
  chown : ChownEnv
  proc : ProcIds

/-- The per-machine state `MakeDiskImage` acts on: the disk path content
and the store directory. -/
structure MachineState where
  disk : Option DiskFile
  store : DirState
deriving DecidableEq

/-- The steps of `MakeDiskImage`, recorded in execution order. -/
inductive ProvEvent where
  | isoCopy : ProvEvent
  | keyGen : ProvEvent
  | diskBuild : ProvEvent
  | ownFix : ProvEvent
deriving DecidableEq, BEq

/-- `MakeDiskImage` (drivers.go:109): stage the ISO, generate the SSH
key, then — only if no file exists at the disk path — create the raw
disk image and fix the permissions of the store directory. An existing
file at the disk path skips both of those steps and the call succeeds. -/
def MakeDiskImage (env : ProvEnv) (s : MachineState) (diskSize : Nat) :
    Except String Unit × MachineState × List ProvEvent :=
  match env.isoErr with
  | some e => (.error ("copy iso to machine dir: " ++ e), s, [.isoCopy])
  | none =>
    match env.keyErr with
    | some e => (.error ("generate ssh key: " ++ e), s, [.isoCopy, .keyGen])
    | none =>
      match s.disk with
      | some _ => (.ok (), s, [.isoCopy, .keyGen])
      | none =>
        let built := createRawDiskImage env.disk none diskSize
        match built.1 with
        | .error e =>
          (.error ("createRawDiskImage: " ++ e), ⟨built.2, s.store⟩,
            [.isoCopy, .keyGen, .diskBuild])
        | .ok _ =>
          let fixed := fixPermissions env.proc env.chown s.store
          match fixed.1 with
          | .error e =>
            (.error ("fixing permissions: " ++ e), ⟨built.2, fixed.2⟩,
              [.isoCopy, .keyGen, .diskBuild, .ownFix])
          | .ok _ =>
            (.ok (), ⟨built.2, fixed.2⟩, [.isoCopy, .keyGen, .diskBuild, .ownFix])

/-! ## Helper lemmas -/

/-- `os.Truncate` always leaves the file at exactly the requested size. -/
theorem padTo_length (l : List Nat) (n : Nat) : (padTo l n).length = n := by
  unfold padTo
  simp only [List.length_append, List.length_take, List.length_replicate]
  omega

/-- When `createRawDiskImage` succeeds, a file is present at the disk
path afterwards. -/
theorem createRaw_ok_some (env : DiskEnv) (ex : Option DiskFile) (n : Nat)
    (h : (createRawDiskImage env ex n).1 = .ok ()) :
    ∃ f, (createRawDiskImage env ex n).2 = some f := by
  unfold createRawDiskImage at h ⊢
  repeat' split at h
  all_goals simp_all

end Drivers

namespace Drivers

/-- The chown loop with no failing chown re-owns every child to
(`Getuid`, `Getegid`) and succeeds. -/
theorem fixFiles_all_ok (p : ProcIds) (env : ChownEnv) (l : List OwnedFile)
    (hf : ∀ f ∈ l, env.chownFileErr f.name = none) :
    fixFiles p env l = (.ok (), l.map fun f => ⟨f.name, p.uid, p.egid⟩) := by
  induction l with
  | nil => rfl
  | cons f fs ih =>
    have hfs : ∀ g ∈ fs, env.chownFileErr g.name = none := fun g hg => hf g (by simp [hg])
    rw [fixFiles, hf f (by simp)]
    rw [ih hfs]
    rfl

/-- `findVersionTail` skips a leading segment in which no suffix starts
with the pattern. -/
theorem findVersionTail_append (pre X : List Char)
    (h : ∀ t ∈ pre.tails, t ≠ [] → listStartsWith verPat (t ++ X) = false) :
    findVersionTail (pre ++ X) = findVersionTail X := by
  induction pre with
  | nil => simp
  | cons c cs ih =>
    have h1 : listStartsWith verPat ((c :: cs) ++ X) = false :=
      h (c :: cs) ((List.mem_tails _ _).mpr List.suffix_rfl) (by simp)
    rw [List.cons_append] at h1
    rw [List.cons_append, findVersionTail, if_neg (by simp [h1])]
    refine ih fun t ht hn => ?_
    refine h t ?_ hn
    exact (List.mem_tails _ _).mpr (((List.mem_tails _ _).mp ht).trans (List.suffix_cons c cs))

/-- When no suffix of the text starts with the pattern, the search
fails. -/
theorem findVersionTail_none (s : List Char)
    (h : ∀ t ∈ s.tails, listStartsWith verPat t = false) :
    findVersionTail s = none := by
  induction s with
  | nil => rfl
  | cons c cs ih =>
    rw [findVersionTail,
      if_neg (by simp [h (c :: cs) ((List.mem_tails _ _).mpr List.suffix_rfl)])]
    exact ih fun t ht =>
      h t ((List.mem_tails _ _).mpr (((List.mem_tails _ _).mp ht).trans (List.suffix_cons c cs)))

/-- The search finds the version line at the front of the remaining text,
whatever follows the newline. -/
theorem findVersionTail_c6Line (r : List Char) :
    findVersionTail (c6Line ++ r) = some ([' ', 'v', '1', '.', '2', '.', '3', '\n'] ++ r) := rfl

/-- C9: `Restart` calls `Stop` first; a `Stop` error is returned
unchanged and `Start` is never called; when `Stop` succeeds, `Start` is
called and its result returned. -/
theorem c9_restart_stop_short_circuits (d : MDriver) :
    (Restart d).2.head? = some .stopCall ∧
    (∀ e, d.stopRes = .error e → Restart d = (.error e, [.stopCall])) ∧
    (d.stopRes = .ok () → Restart d = (d.startRes, [.stopCall, .startCall])) := by
  unfold Restart
  cases h : d.stopRes with
  | error e => simp
  | ok u => cases u; simp

/-- Witness for C9 at a concrete driver whose `Stop` fails. -/
theorem c9_restart_stop_short_circuits_witness :
    Restart ⟨.error "stop exploded", .ok ()⟩ = (.error "stop exploded", [.stopCall]) :=
  (c9_restart_stop_short_circuits ⟨.error "stop exploded", .ok ()⟩).2.1 "stop exploded" rfl

/-- C10: the extraction regex matches the first occurrence of
`version:` anywhere in the text, not only at the start of a line: an
occurrence embedded in a longer word (`subversion:`) still yields a
non-empty token, and of two `version:` lines the first wins. -/
theorem c10_extract_matches_anywhere :
    ExtractVMDriverVersion "subversion: 1.2.3" = "1.2.3" ∧
    ExtractVMDriverVersion "subversion: 1.2.3" ≠ "" ∧
    ExtractVMDriverVersion "version: a\nversion: b" = "a" := by
  refine ⟨rfl, ?_, rfl⟩
  decide

/-- C1: reconciliation against minimum version `1.0.0` for the supported
driver: probed `v0.9.9` triggers the download path; `v1.0.0` and
`v1.0.1` are a success with no effects; output with no version line
(empty extracted token) triggers download; an unparseable token (`abc`)
is a propagated error with no download effect at all. -/
theorem c1_reconcile_version_thresholds :
    (InstallOrUpdate "docker-machine-driver-kvm2" "/bin" ⟨1, 0, 0⟩
        (.versionOutput "version: v0.9.9\ncommit: 9ab8f2d") ⟨none, none⟩ =
      (.ok (), [.removeFile "/bin/docker-machine-driver-kvm2",
        .fetchFile driverKVMDownloadURL "/bin/docker-machine-driver-kvm2",
        .chmodFile "/bin/docker-machine-driver-kvm2" 511])) ∧
    (InstallOrUpdate "docker-machine-driver-kvm2" "/bin" ⟨1, 0, 0⟩
        (.versionOutput "version: v1.0.0\ncommit: 9ab8f2d") ⟨none, none⟩ = (.ok (), [])) ∧
    (InstallOrUpdate "docker-machine-driver-kvm2" "/bin" ⟨1, 0, 0⟩
        (.versionOutput "version: v1.0.1\ncommit: 9ab8f2d") ⟨none, none⟩ = (.ok (), [])) ∧
    (InstallOrUpdate "docker-machine-driver-kvm2" "/bin" ⟨1, 0, 0⟩
        (.versionOutput "commit: 9ab8f2d") ⟨none, none⟩ =
      (.ok (), [.removeFile "/bin/docker-machine-driver-kvm2",
        .fetchFile driverKVMDownloadURL "/bin/docker-machine-driver-kvm2",
        .chmodFile "/bin/docker-machine-driver-kvm2" 511])) ∧
    ((InstallOrUpdate "docker-machine-driver-kvm2" "/bin" ⟨1, 0, 0⟩
        (.versionOutput "version: abc\ncommit: 9ab8f2d") ⟨none, none⟩).1.isOk = false) ∧
    ((InstallOrUpdate "docker-machine-driver-kvm2" "/bin" ⟨1, 0, 0⟩
        (.versionOutput "version: abc\ncommit: 9ab8f2d") ⟨none, none⟩).2 = []) := by
  refine ⟨?_, ?_, ?_, ?_, ?_, ?_⟩ <;> rfl

/-- C7: for any driver name other than `docker-machine-driver-kvm2`,
`download` succeeds immediately with no filesystem effect, and the whole
reconciliation never performs any effect either, whatever the probe
outcome and required minimum version. -/
theorem c7_download_noop_for_other_drivers (driver destination : String)
    (h : driver ≠ "docker-machine-driver-kvm2") (env : DlEnv) :
    download driver destination env = (.ok (), []) ∧
    ∀ (minikubeVersion : SemVer) (probe : Probe),
      (InstallOrUpdate driver destination minikubeVersion probe env).2 = [] := by
  have hd : download driver destination env = (.ok (), []) := by
    unfold download
    rw [if_pos h]
  refine ⟨hd, ?_⟩
  intro mv probe
  cases probe with
  | notOnPath => rw [InstallOrUpdate, hd]
  | versionCmdFails => rw [InstallOrUpdate, hd]
  | versionOutput output =>
    rw [InstallOrUpdate]
    split
    · rw [hd]
    · split
      · rfl
      · split
        · rw [hd]
        · rfl

/-- Witness for C7 at a concrete unsupported driver name. -/
theorem c7_download_noop_for_other_drivers_witness :
    download "docker-machine-driver-hyperkit" "/bin" ⟨none, none⟩ = (.ok (), []) :=
  (c7_download_noop_for_other_drivers "docker-machine-driver-hyperkit" "/bin"
    (by decide) ⟨none, none⟩).1

/-- C4: when a file already exists at the disk path,
`createRawDiskImage` returns an error and leaves the existing file
untouched; whenever the tar-build step succeeded, that error is the
exclusive-create open failure. -/
theorem c4_existing_file_never_overwritten (env : DiskEnv) (f : DiskFile) (n : Nat) :
    (createRawDiskImage env (some f) n).1.isOk = false ∧
    (createRawDiskImage env (some f) n).2 = some f ∧
    ((∃ b, env.tarResult = .ok b) →
      (createRawDiskImage env (some f) n).1 = .error "open: file exists") := by
  unfold createRawDiskImage
  cases h : env.tarResult <;> simp [h, Except.isOk, Except.toBool]

/-- Witness for C4 at a concrete pre-existing file. -/
theorem c4_existing_file_never_overwritten_witness :
    (createRawDiskImage ⟨.ok [3, 1, 4], none, none, none, none, none⟩ (some ⟨[7, 7]⟩) 20).2 =
      some ⟨[7, 7]⟩ :=
  (c4_existing_file_never_overwritten ⟨.ok [3, 1, 4], none, none, none, none, none⟩ ⟨[7, 7]⟩ 20).2.1

/-- C8 counterexample: the size computation `int64(diskSizeMb*1000000)`
wraps in 64-bit `int` arithmetic, so at `diskSizeMb = 18446744073710`
(the product exceeds `2^64` by 448384) the operation succeeds yet leaves
a 448384-byte file — not one of `diskSizeMb * 1000000` bytes. -/
theorem c8_counterexample_wrapping_size :
    (createRawDiskImage ⟨.ok [], none, none, none, none, none⟩ none 18446744073710).1 =
      .ok () ∧
    (createRawDiskImage ⟨.ok [], none, none, none, none, none⟩ none 18446744073710).2 =
      some ⟨padTo [] 448384⟩ ∧
    (padTo [] 448384).length = 448384 ∧
    (448384 : Nat) ≠ 18446744073710 * 1000000 := by
  refine ⟨rfl, rfl, padTo_length [] 448384, ?_⟩
  decide

/-- C8 as amended: whenever `createRawDiskImage` succeeds, the file at
the disk path has exactly `(sizeMB * 1000000) mod 2^64` bytes — the
wrapped 64-bit size the truncate actually uses — which equals
`sizeMB * 1000000` itself whenever that product stays below `2^63`. -/
theorem c8_amended_success_wrapped_size (env : DiskEnv) (ex : Option DiskFile) (n : Nat)
    (h : (createRawDiskImage env ex n).1 = .ok ()) :
    ∃ f, (createRawDiskImage env ex n).2 = some f ∧
      f.bytes.length = n * 1000000 % 18446744073709551616 ∧
      (n * 1000000 < 9223372036854775808 → f.bytes.length = n * 1000000) := by
  unfold createRawDiskImage at h ⊢
  repeat' split at h
  all_goals simp_all
  refine ⟨padTo_length _ _, fun hlt => ?_⟩
  rw [padTo_length]
  omega

/-- Witness for the amended C8 at a concrete successful environment. -/
theorem c8_amended_success_wrapped_size_witness :
    ∃ f, (createRawDiskImage ⟨.ok [9], none, none, none, none, none⟩ none 0).2 = some f ∧
      f.bytes.length = 0 * 1000000 % 18446744073709551616 ∧
      (0 * 1000000 < 9223372036854775808 → f.bytes.length = 0 * 1000000) :=
  c8_amended_success_wrapped_size ⟨.ok [9], none, none, none, none, none⟩ none 0 rfl

/-- C2 counterexample: with a failing truncate step, `createRawDiskImage`
returns an error, yet the (partially written) file exists at the disk
path afterwards — creation is not all-or-nothing. -/
theorem c2_counterexample_partial_file_remains :
    (createRawDiskImage ⟨.ok [1], none, none, none, none, some "no space left"⟩ none 1).1 =
      .error "truncate: no space left" ∧
    (createRawDiskImage ⟨.ok [1], none, none, none, none, some "no space left"⟩ none 1).2 =
      some ⟨[1]⟩ :=
  ⟨rfl, rfl⟩

/-- C2 as amended: on error, either the disk-path state is unchanged
(tar-build failure, open failure, or a pre-existing file), or the
exclusive-create open had already succeeded and the file it created —
possibly partially written — remains at the path. -/
theorem c2_amended_error_leaves_state_or_partial_file (env : DiskEnv) (ex : Option DiskFile)
    (n : Nat) (h : (createRawDiskImage env ex n).1.isOk = false) :
    (createRawDiskImage env ex n).2 = ex ∨
      (ex = none ∧ env.openErr = none ∧ (∃ b, env.tarResult = .ok b) ∧
        (createRawDiskImage env ex n).2 ≠ none) := by
  unfold createRawDiskImage at h ⊢
  repeat' split at h
  all_goals simp_all [Except.isOk]
  exact Classical.em _

/-- Witness for the amended C2 at a concrete tar-build failure. -/
theorem c2_amended_error_leaves_state_or_partial_file_witness :
    (createRawDiskImage ⟨.error "key unreadable", none, none, none, none, none⟩ (some ⟨[5]⟩) 2).2 =
      some ⟨[5]⟩ :=
  Or.resolve_right
    (c2_amended_error_leaves_state_or_partial_file
      ⟨.error "key unreadable", none, none, none, none, none⟩ (some ⟨[5]⟩) 2 rfl)
    (by simp)

/-- C3 counterexample: `fixPermissions` chowns to `syscall.Getuid()` —
the REAL user id — not the effective user id: a process with real uid
1000 and effective uid 0 leaves the directory owned by 1000, not 0. -/
theorem c3_counterexample_real_uid_used :
    (fixPermissions ⟨1000, 0, 1000, 5⟩ ⟨none, none, fun _ => none⟩
      ⟨0, 0, [⟨"disk.rawdisk", 0, 0⟩]⟩).1 = .ok () ∧
    (fixPermissions ⟨1000, 0, 1000, 5⟩ ⟨none, none, fun _ => none⟩
      ⟨0, 0, [⟨"disk.rawdisk", 0, 0⟩]⟩).2.owner = 1000 ∧
    (ProcIds.euid ⟨1000, 0, 1000, 5⟩ = 0) ∧
    (fixPermissions ⟨1000, 0, 1000, 5⟩ ⟨none, none, fun _ => none⟩
      ⟨0, 0, [⟨"disk.rawdisk", 0, 0⟩]⟩).2.owner ≠ ProcIds.euid ⟨1000, 0, 1000, 5⟩ := by
  refine ⟨rfl, rfl, rfl, ?_⟩
  decide

/-- C3 as amended: when every chown succeeds, `fixPermissions` sets the
owning user of the store directory and of every direct child file to the
process's REAL user id (`syscall.Getuid`) and the owning group to its
effective group id (`syscall.Getegid`). -/
theorem c3_amended_chown_real_uid_effective_gid (p : ProcIds) (env : ChownEnv) (d : DirState)
    (hd : env.chownDirErr = none) (hr : env.readDirErr = none)
    (hf : ∀ f ∈ d.children, env.chownFileErr f.name = none) :
    fixPermissions p env d =
      (.ok (), ⟨p.uid, p.egid, d.children.map fun f => ⟨f.name, p.uid, p.egid⟩⟩) := by
  rw [fixPermissions, hd, hr, fixFiles_all_ok p env d.children hf]

/-- Witness for the amended C3 at a concrete directory and process. -/
theorem c3_amended_chown_real_uid_effective_gid_witness :
    (fixPermissions ⟨42, 7, 42, 9⟩ ⟨none, none, fun _ => none⟩
      ⟨0, 0, [⟨"boot2docker.iso", 1, 2⟩]⟩).2.owner = 42 := by
  rw [c3_amended_chown_real_uid_effective_gid ⟨42, 7, 42, 9⟩ ⟨none, none, fun _ => none⟩
    ⟨0, 0, [⟨"boot2docker.iso", 1, 2⟩]⟩ rfl rfl (fun f _ => rfl)]

/-- C6: extraction of a `version: v1.2.3` line. When the pattern does
not start anywhere inside the text preceding the line, extraction of
`pre ++ "version: v1.2.3\n" ++ further-lines` returns `"1.2.3"` (trimmed,
prefix stripped), whatever the further lines are; and on any text none
of whose suffixes starts with `version:`, extraction returns `""`. -/
theorem c6_extract_version_line (pre rest s : String)
    (h1 : ∀ t ∈ pre.data.tails, t ≠ [] →
      listStartsWith verPat (t ++ ("version: v1.2.3\n" ++ rest).data) = false)
    (h2 : ∀ t ∈ s.data.tails, listStartsWith verPat t = false) :
    ExtractVMDriverVersion (pre ++ ("version: v1.2.3\n" ++ rest)) = "1.2.3" ∧
    ExtractVMDriverVersion s = "" := by
  constructor
  · have hdata : ("version: v1.2.3\n" ++ rest).data = c6Line ++ rest.data := by
      rw [String.data_append]
      rfl
    have hfind : findVersionTail ((pre ++ ("version: v1.2.3\n" ++ rest)).data) =
        some ([' ', 'v', '1', '.', '2', '.', '3', '\n'] ++ rest.data) := by
      rw [String.data_append, hdata]
      rw [findVersionTail_append pre.data (c6Line ++ rest.data)
        (fun t ht hn => hdata ▸ h1 t ht hn)]
      exact findVersionTail_c6Line rest.data
    rw [ExtractVMDriverVersion, hfind]
    rfl
  · rw [ExtractVMDriverVersion, findVersionTail_none s.data h2]

/-- Witness for C6 at a concrete driver `version` output preceded by an
unrelated line, and a concrete text with no `version:` occurrence. -/
theorem c6_extract_version_line_witness :
    ExtractVMDriverVersion ("output:\n" ++ ("version: v1.2.3\n" ++ "commit: 9ab8f2d")) =
      "1.2.3" ∧
    ExtractVMDriverVersion "no match in here" = "" :=
  c6_extract_version_line "output:\n" "commit: 9ab8f2d" "no match in here"
    (by decide) (by decide)

/-- C5: disk provisioning is idempotent in the raw-disk build. A state
with a file at the disk path makes the build and ownership-fix steps be
skipped and the call succeed without touching the state; hence after a
successful provisioning from a state without a disk file (which performs
the build exactly once), a second provisioning is a no-op success that
builds nothing. -/
theorem c5_provisioning_builds_once (env1 env2 : ProvEnv) (s0 : MachineState) (n1 n2 : Nat)
    (h0 : s0.disk = none)
    (h2i : env2.isoErr = none) (h2k : env2.keyErr = none)
    (h1 : (MakeDiskImage env1 s0 n1).1 = .ok ()) :
    ((MakeDiskImage env1 s0 n1).2.2.count .diskBuild = 1) ∧
    (MakeDiskImage env2 (MakeDiskImage env1 s0 n1).2.1 n2 =
      (.ok (), (MakeDiskImage env1 s0 n1).2.1, [.isoCopy, .keyGen])) ∧
    (∀ (s : MachineState) (f : DiskFile) (n : Nat), s.disk = some f →
      MakeDiskImage env2 s n = (.ok (), s, [.isoCopy, .keyGen])) := by
  have hskip : ∀ (s : MachineState) (f : DiskFile) (n : Nat), s.disk = some f →
      MakeDiskImage env2 s n = (.ok (), s, [.isoCopy, .keyGen]) := by
    intro s f n hs
    rw [MakeDiskImage, h2i, h2k, hs]
  cases hi : env1.isoErr with
  | some e => simp [MakeDiskImage, hi] at h1
  | none =>
  cases hk : env1.keyErr with
  | some e => simp [MakeDiskImage, hi, hk] at h1
  | none =>
  cases hc : (createRawDiskImage env1.disk none n1).1 with
  | error e => simp [MakeDiskImage, hi, hk, h0, hc] at h1
  | ok u =>
  cases u
  cases hfx : (fixPermissions env1.proc env1.chown s0.store).1 with
  | error e => simp [MakeDiskImage, hi, hk, h0, hc, hfx] at h1
  | ok v =>
  cases v
  have hrun : MakeDiskImage env1 s0 n1 =
      (.ok (), ⟨(createRawDiskImage env1.disk none n1).2,
        (fixPermissions env1.proc env1.chown s0.store).2⟩,
        [.isoCopy, .keyGen, .diskBuild, .ownFix]) := by
    simp only [MakeDiskImage, hi, hk, h0, hc, hfx]
  obtain ⟨f, hfile⟩ := createRaw_ok_some env1.disk none n1 hc
  have htrace : (MakeDiskImage env1 s0 n1).2.2 =
      [.isoCopy, .keyGen, .diskBuild, .ownFix] := by
    rw [hrun]
  refine ⟨by rw [htrace]; decide, ?_, hskip⟩
  rw [hrun]
  exact hskip ⟨(createRawDiskImage env1.disk none n1).2,
    (fixPermissions env1.proc env1.chown s0.store).2⟩ f n2 hfile

/-- Witness for C5 at a concrete all-succeeding environment: the first
provisioning from an empty store performs the raw-disk build exactly
once. -/
theorem c5_provisioning_builds_once_witness :
    (MakeDiskImage
      ⟨none, none, ⟨.ok [8], none, none, none, none, none⟩, ⟨none, none, fun _ => none⟩,
        ⟨501, 501, 20, 20⟩⟩
      ⟨none, ⟨0, 0, []⟩⟩ 0).2.2.count .diskBuild = 1 :=
  (c5_provisioning_builds_once
    ⟨none, none, ⟨.ok [8], none, none, none, none, none⟩, ⟨none, none, fun _ => none⟩,
      ⟨501, 501, 20, 20⟩⟩
    ⟨none, none, ⟨.ok [8], none, none, none, none, none⟩, ⟨none, none, fun _ => none⟩,
      ⟨501, 501, 20, 20⟩⟩
    ⟨none, ⟨0, 0, []⟩⟩ 0 0 rfl rfl rfl rfl).1

end Drivers
